import Mathlib

/-!
Verification of the control core of `BasicMotorControl.c` (PMSM repository):
an LQG-style speed regulator with six-step (trapezoidal) commutation.

The C source is shallowly embedded: the static module state becomes an
explicit record `CtrlState`, the six PWM duty registers and three status
LEDs become the record `PhaseOut`, single-precision float arithmetic is
idealised as exact rational arithmetic (the claims at issue are structural,
not about rounding), and the C cast `(uint16_t)` of a nonnegative float is
modelled as truncation toward zero followed by reduction modulo 2^16.
`PTPER` (the PWM period register, defined outside this file s source) is a
parameter `ptper` of every operation.
-/

namespace PMSM

/-- One of the three motor phases. -/
inductive Phase where
  | A : Phase
  | B : Phase
  | C : Phase
deriving DecidableEq

/-- Rotation direction constants `CW` / `CCW` from the board header. -/
inductive Direction where
  | CW : Direction
  | CCW : Direction
deriving DecidableEq

/-- The six PWM duty registers `GH_x_DC` / `GL_x_DC` and the three status
LEDs written by `TrapUpdate`. -/
structure PhaseOut where
  ghA : ℕ
  glA : ℕ
  ghB : ℕ
  glB : ℕ
  ghC : ℕ
  glC : ℕ
  led1 : Bool
  led2 : Bool
  led3 : Bool
deriving DecidableEq

/-- A 3-component column vector, as used for `x_hat`, `x_dummy`, `L`, `K`. -/
structure Vec3 where
  c0 : ℚ
  c1 : ℚ
  c2 : ℚ
deriving DecidableEq

/-- Row 0 of the observer dynamics matrix `K_reg`. -/
def K_reg_row0 : Vec3 := ⟨0.7639, -0.358, -0.5243⟩

/-- Row 1 of the observer dynamics matrix `K_reg`. -/
def K_reg_row1 : Vec3 := ⟨0.2752, -0.1471, -0.55⟩

/-- Row 2 of the observer dynamics matrix `K_reg`. -/
def K_reg_row2 : Vec3 := ⟨-0.2592, 0.4365, 0.6546⟩

/-- The innovation gain vector `L`. -/
def L : Vec3 := ⟨0.0002849, -0.00008373, -0.001217⟩

/-- The state feedback gain row vector `K`. -/
def K : Vec3 := ⟨-0.4137, -0.6805, 0.744⟩

/-- The sampling period `Ts = .0003333` seconds. -/
def Ts : ℚ := 0.0003333

/-- Modelled from the spec: the constant `PI` used by `Counts2RadSec` comes
from the DSP header, which is not part of this repository; the spec calls it
2π.  Its exact value is irrelevant to every theorem below. -/
def PI : ℚ := 3.14159265358979323846

/-- The module state of `BasicMotorControl.c`: the static variables `u`,
`x_hat`, `x_dummy`, the 32-bit QEI position counter (read and reset by
`SpeedControlStep`), the phase outputs, the telemetry pair
`(indexCount, (uint16_t)(x_hat[2][0] * 10000))` handed to the DMA UART
transfer, the toggling `LED4`, and the CN interrupt flag. -/
structure CtrlState where
  u : ℚ
  x_hat : Vec3
  x_dummy : Vec3
  qeiCount : ℤ
  out : PhaseOut
  telem : ℤ × ℕ
  led4 : Bool
  cnif : Bool
deriving DecidableEq

/-- C truncation toward zero of a rational (the integer part used by a
float-to-integer cast). -/
def cTrunc (q : ℚ) : ℤ :=
  if q < 0 then Int.ceil q else Int.floor q

/-- The C cast `(uint16_t)` applied to a float: truncate toward zero and
reduce modulo 2^16 (the wrap models what the 16-bit conversion does when
the value is out of range). -/
def ratToU16 (q : ℚ) : ℕ :=
  (cTrunc q % 65536).toNat

/-- Reinterpretation of an integer as a signed 16-bit value: the effect of
`int16_t indexCount = (int) Read32bitQEI1IndexCounter();` on the 32-bit
counter value. -/
def toI16 (z : ℤ) : ℤ :=
  (z + 32768) % 65536 - 32768

/-- `Counts2RadSec` from the source:
`return(((speed / (512.0)) * 2 * PI) / Ts);`. -/
def Counts2RadSec (speed : ℤ) : ℚ :=
  (((speed : ℚ) / 512) * 2 * PI) / Ts

/-- The saturation at the top of `TrapUpdate`:
`if (torque > PTPER) { torque = PTPER; }`. -/
def clampDuty (ptper torque : ℕ) : ℕ :=
  if torque > ptper then ptper else torque

/-- `TrapUpdate` from the source: clamp the torque, then write all six phase
duty registers and the three LEDs according to the hall sector code and the
direction; an unrecognised sector code (or direction) writes nothing. -/
def TrapUpdate (ptper torque0 : ℕ) (direction : Direction)
    (h1 h2 h3 : Bool) (o : PhaseOut) : PhaseOut :=
  let torque := clampDuty ptper torque0
  match direction with
  | Direction.CW =>
    if h1 && h2 && !h3 then
      { ghA := 0, glA := 0, ghB := torque, glB := 0, ghC := 0, glC := torque,
        led1 := true, led2 := true, led3 := false }
    else if !h1 && h2 && !h3 then
      { ghA := 0, glA := torque, ghB := torque, glB := 0, ghC := 0, glC := 0,
        led1 := false, led2 := true, led3 := false }
    else if !h1 && h2 && h3 then
      { ghA := 0, glA := torque, ghB := 0, glB := 0, ghC := torque, glC := 0,
        led1 := false, led2 := true, led3 := true }
    else if !h1 && !h2 && h3 then
      { ghA := 0, glA := 0, ghB := 0, glB := torque, ghC := torque, glC := 0,
        led1 := false, led2 := false, led3 := true }
    else if h1 && !h2 && h3 then
      { ghA := torque, glA := 0, ghB := 0, glB := torque, ghC := 0, glC := 0,
        led1 := true, led2 := false, led3 := true }
    else if h1 && !h2 && !h3 then
      { ghA := torque, glA := 0, ghB := 0, glB := 0, ghC := 0, glC := torque,
        led1 := true, led2 := false, led3 := false }
    else o
  | Direction.CCW =>
    if h1 && h2 && !h3 then
      { ghA := 0, glA := 0, ghB := 0, glB := torque, ghC := torque, glC := 0,
        led1 := true, led2 := true, led3 := false }
    else if !h1 && h2 && !h3 then
      { ghA := torque, glA := 0, ghB := 0, glB := torque, ghC := 0, glC := 0,
        led1 := false, led2 := true, led3 := false }
    else if !h1 && h2 && h3 then
      { ghA := torque, glA := 0, ghB := 0, glB := 0, ghC := 0, glC := torque,
        led1 := false, led2 := true, led3 := true }
    else if !h1 && !h2 && h3 then
      { ghA := 0, glA := 0, ghB := torque, glB := 0, ghC := 0, glC := torque,
        led1 := false, led2 := false, led3 := true }
    else if h1 && !h2 && h3 then
      { ghA := 0, glA := torque, ghB := torque, glB := 0, ghC := 0, glC := 0,
        led1 := true, led2 := false, led3 := true }
    else if h1 && !h2 && !h3 then
      { ghA := 0, glA := torque, ghB := 0, glB := 0, ghC := torque, glC := 0,
        led1 := true, led2 := false, led3 := false }
    else o

/-- The sign dispatch shared verbatim by `SpeedControlStep` and
`_CNInterrupt`:
`if (u < 0) TrapUpdate((uint16_t)(-1*u*PTPER), CCW); else if (u >= 0)
TrapUpdate((uint16_t)(u*PTPER), CW);`. -/
def trapDispatch (ptper : ℕ) (u : ℚ) (h1 h2 h3 : Bool) (o : PhaseOut) :
    PhaseOut :=
  if u < 0 then
    TrapUpdate ptper (ratToU16 (-1 * u * (ptper : ℚ))) Direction.CCW h1 h2 h3 o
  else if 0 ≤ u then
    TrapUpdate ptper (ratToU16 (u * (ptper : ℚ))) Direction.CW h1 h2 h3 o
  else o

/-- `SpeedControlStep` from the source: read and reset the position counter,
form the velocity error, run the three observer rows exactly as written
(note the literal index pattern of rows 1 and 2), replace `x_hat`, compute
`u`, dispatch commutation, and emit telemetry. -/
def SpeedControlStep (ptper : ℕ) (speed : ℚ) (h1 h2 h3 : Bool)
    (s : CtrlState) : CtrlState :=
  let indexCount : ℤ := toI16 s.qeiCount
  let theta_dot : ℚ := Counts2RadSec indexCount - speed
  let d0 : ℚ := s.x_hat.c0 * K_reg_row0.c0 + s.x_hat.c1 * K_reg_row0.c1 +
    s.x_hat.c2 * K_reg_row0.c2 + L.c0 * theta_dot
  let d1 : ℚ := s.x_hat.c1 * K_reg_row1.c0 + s.x_hat.c1 * K_reg_row1.c1 +
    s.x_hat.c2 * K_reg_row1.c2 + L.c1 * theta_dot
  let d2 : ℚ := s.x_hat.c2 * K_reg_row2.c0 + s.x_hat.c1 * K_reg_row2.c1 +
    s.x_hat.c2 * K_reg_row2.c2 + L.c2 * theta_dot
  let xh : Vec3 := ⟨d0, d1, d2⟩
  let u2 : ℚ := -1 * (K.c0 * xh.c0 + K.c1 * xh.c1 + K.c2 * xh.c2)
  { s with
    qeiCount := 0
    x_dummy := ⟨d0, d1, d2⟩
    x_hat := xh
    u := u2
    out := trapDispatch ptper u2 h1 h2 h3 s.out
    telem := (indexCount, ratToU16 (xh.c2 * 10000))
    led4 := !s.led4 }

/-- `_CNInterrupt` from the source: dispatch commutation with the cached
`u` and clear the CN interrupt flag. -/
def CNInterrupt (ptper : ℕ) (h1 h2 h3 : Bool) (s : CtrlState) : CtrlState :=
  { s with
    out := trapDispatch ptper s.u h1 h2 h3 s.out
    cnif := false }

/-- The three observer rows of `SpeedControlStep` as one simultaneous vector
function of the pre-update estimate and the velocity error (the literal
index pattern of the source, rows 1 and 2 included). -/
def observerUpdate (x : Vec3) (e : ℚ) : Vec3 :=
  ⟨x.c0 * K_reg_row0.c0 + x.c1 * K_reg_row0.c1 + x.c2 * K_reg_row0.c2 +
    L.c0 * e,
   x.c1 * K_reg_row1.c0 + x.c1 * K_reg_row1.c1 + x.c2 * K_reg_row1.c2 +
    L.c1 * e,
   x.c2 * K_reg_row2.c0 + x.c1 * K_reg_row2.c1 + x.c2 * K_reg_row2.c2 +
    L.c2 * e⟩

/-- The observer update as the spec words it (claim C1): a genuine
matrix-vector product `Σ_j x̂[j] × K_reg[i][j]` on every row, written here
for comparison with the `observerUpdate` transcribed from the source. -/
def specObserverUpdate (x : Vec3) (e : ℚ) : Vec3 :=
  ⟨x.c0 * K_reg_row0.c0 + x.c1 * K_reg_row0.c1 + x.c2 * K_reg_row0.c2 +
    L.c0 * e,
   x.c0 * K_reg_row1.c0 + x.c1 * K_reg_row1.c1 + x.c2 * K_reg_row1.c2 +
    L.c1 * e,
   x.c0 * K_reg_row2.c0 + x.c1 * K_reg_row2.c1 + x.c2 * K_reg_row2.c2 +
    L.c2 * e⟩

/-- The magnitude that reaches the active phase legs for a control value
`u`: the composition of the sign-split torque computation of the dispatch
with the saturation of `TrapUpdate`. -/
def appliedDuty (ptper : ℕ) (u : ℚ) : ℕ :=
  clampDuty ptper (ratToU16 ((if u < 0 then -1 * u else u) * (ptper : ℚ)))

/-- The six legal hall sector codes: everything except all-zero and
all-one. -/
def validHall (h1 h2 h3 : Bool) : Prop :=
  (h1, h2, h3) ≠ (false, false, false) ∧ (h1, h2, h3) ≠ (true, true, true)

instance (h1 h2 h3 : Bool) : Decidable (validHall h1 h2 h3) :=
  inferInstanceAs (Decidable (_ ≠ _ ∧ _ ≠ _))

/-- The high-side duty of a given phase. -/
def highLeg (o : PhaseOut) : Phase → ℕ
  | Phase.A => o.ghA
  | Phase.B => o.ghB
  | Phase.C => o.ghC

/-- The low-side duty of a given phase. -/
def lowLeg (o : PhaseOut) : Phase → ℕ
  | Phase.A => o.glA
  | Phase.B => o.glB
  | Phase.C => o.glC

/-- Phase outputs with one active high-side leg, one active low-side leg and
everything else zero; the shape every valid `TrapUpdate` branch takes. -/
def activeOut (hp lp : Phase) (t : ℕ) (l1 l2 l3 : Bool) : PhaseOut :=
  { ghA := if hp = Phase.A then t else 0
    glA := if lp = Phase.A then t else 0
    ghB := if hp = Phase.B then t else 0
    glB := if lp = Phase.B then t else 0
    ghC := if hp = Phase.C then t else 0
    glC := if lp = Phase.C then t else 0
    led1 := l1
    led2 := l2
    led3 := l3 }

/-- The all-zero phase output record. -/
def phaseOut0 : PhaseOut :=
  ⟨0, 0, 0, 0, 0, 0, false, false, false⟩

/-- A concrete module state with estimate `(1, 0, 0)` and everything else
zero, used to separate the source observer update from the spec formula. -/
def ctrlState1 : CtrlState :=
  { u := 0
    x_hat := ⟨1, 0, 0⟩
    x_dummy := ⟨0, 0, 0⟩
    qeiCount := 0
    out := phaseOut0
    telem := (0, 0)
    led4 := false
    cnif := false }

/-! ## Helper lemmas -/

/-- The high-side legs of `activeOut` as a conditional. -/
lemma highLeg_activeOut (hp lp : Phase) (t : ℕ) (l1 l2 l3 : Bool) (p : Phase) :
    highLeg (activeOut hp lp t l1 l2 l3) p = if p = hp then t else 0 := by
  cases p <;> cases hp <;> rfl

/-- The low-side legs of `activeOut` as a conditional. -/
lemma lowLeg_activeOut (hp lp : Phase) (t : ℕ) (l1 l2 l3 : Bool) (p : Phase) :
    lowLeg (activeOut hp lp t l1 l2 l3) p = if p = lp then t else 0 := by
  cases p <;> cases lp <;> rfl

/-- An `activeOut` record has exactly one active high-side leg and one
active low-side leg on distinct phases, everything else zero. -/
lemma activeOut_exists (hp lp : Phase) (t : ℕ) (l1 l2 l3 : Bool)
    (hne : hp ≠ lp) :
    ∃ hp2 lp2 : Phase, hp2 ≠ lp2 ∧
      highLeg (activeOut hp lp t l1 l2 l3) hp2 = t ∧
      lowLeg (activeOut hp lp t l1 l2 l3) lp2 = t ∧
      (∀ p : Phase, p ≠ hp2 → highLeg (activeOut hp lp t l1 l2 l3) p = 0) ∧
      (∀ p : Phase, p ≠ lp2 → lowLeg (activeOut hp lp t l1 l2 l3) p = 0) := by
  refine ⟨hp, lp, hne, ?_, ?_, ?_, ?_⟩
  · rw [highLeg_activeOut]; simp
  · rw [lowLeg_activeOut]; simp
  · intro p hp2; rw [highLeg_activeOut]; simp [hp2]
  · intro p hl2; rw [lowLeg_activeOut]; simp [hl2]

/-- Two `activeOut` records with the same pair of phases in swapped roles:
the shared active-pair structure used for the direction-symmetry claim. -/
lemma activePair_swap (hp lp : Phase) (t : ℕ) (l1 l2 l3 m1 m2 m3 : Bool)
    (hne : hp ≠ lp) :
    ∃ hp2 lp2 : Phase, hp2 ≠ lp2 ∧
      highLeg (activeOut hp lp t l1 l2 l3) hp2 = t ∧
      lowLeg (activeOut hp lp t l1 l2 l3) lp2 = t ∧
      highLeg (activeOut lp hp t m1 m2 m3) lp2 = t ∧
      lowLeg (activeOut lp hp t m1 m2 m3) hp2 = t ∧
      (∀ p : Phase, p ≠ hp2 → highLeg (activeOut hp lp t l1 l2 l3) p = 0) ∧
      (∀ p : Phase, p ≠ lp2 → lowLeg (activeOut hp lp t l1 l2 l3) p = 0) ∧
      (∀ p : Phase, p ≠ lp2 → highLeg (activeOut lp hp t m1 m2 m3) p = 0) ∧
      (∀ p : Phase, p ≠ hp2 → lowLeg (activeOut lp hp t m1 m2 m3) p = 0) := by
  refine ⟨hp, lp, hne, ?_, ?_, ?_, ?_, ?_, ?_, ?_, ?_⟩
  · rw [highLeg_activeOut]; simp
  · rw [lowLeg_activeOut]; simp
  · rw [highLeg_activeOut]; simp
  · rw [lowLeg_activeOut]; simp
  · intro p hp2; rw [highLeg_activeOut]; simp [hp2]
  · intro p hl2; rw [lowLeg_activeOut]; simp [hl2]
  · intro p hl2; rw [highLeg_activeOut]; simp [hl2]
  · intro p hp2; rw [lowLeg_activeOut]; simp [hp2]

/-- The saturation of `TrapUpdate` never exceeds the period register. -/
lemma clampDuty_le (ptper t : ℕ) : clampDuty ptper t ≤ ptper := by
  rw [clampDuty]; split <;> omega

/-! ## Claims -/

/-- Claim C1, counterexample: the claimed matrix-vector formula
`x̂_new[i] = Σ_j (x̂[j] × K_reg[i][j]) + L[i] × error` fails on the code.
From the state with estimate `(1, 0, 0)`, zero displacement and zero target
speed, the source step leaves component 1 of the estimate at `0`, while the
claimed formula gives `K_reg[1][0] × 1 = 0.2752`: row 1 of the source
multiplies `K_reg[1][0]` by `x_hat[1][0]` instead of `x_hat[0][0]`. -/
theorem c1_observer_rows_counterexample :
    (SpeedControlStep 100 0 true true false ctrlState1).x_hat.c1 ≠
      (specObserverUpdate ctrlState1.x_hat
        (Counts2RadSec (toI16 ctrlState1.qeiCount) - 0)).c1 := by
  norm_num [SpeedControlStep, specObserverUpdate, ctrlState1, Counts2RadSec,
    toI16, K_reg_row1, L]

/-- Claim C1, amended: each step computes component 0 of the new estimate by
the claimed formula, but in row 1 the source multiplies `K_reg[1][0]` by
`x̂[1]` (not `x̂[0]`), and in row 2 it multiplies `K_reg[2][0]` by `x̂[2]`
(not `x̂[0]`); `x̂[0]` is read only by row 0.  The theorem states that the
step performs exactly the literal row computation `observerUpdate`, that
row 0 agrees with the spec formula everywhere, and that rows 1 and 2 differ
from the spec formula by exactly `K_reg[i][0] × (x̂[0] − x̂[i])`. -/
theorem c1_observer_rows_amended :
    ∀ (ptper : ℕ) (speed : ℚ) (h1 h2 h3 : Bool) (s : CtrlState),
    (SpeedControlStep ptper speed h1 h2 h3 s).x_hat =
      observerUpdate s.x_hat (Counts2RadSec (toI16 s.qeiCount) - speed) ∧
    (∀ (x : Vec3) (e : ℚ),
      (observerUpdate x e).c0 = (specObserverUpdate x e).c0) ∧
    (∀ (x : Vec3) (e : ℚ),
      (specObserverUpdate x e).c1 - (observerUpdate x e).c1 =
        K_reg_row1.c0 * (x.c0 - x.c1)) ∧
    (∀ (x : Vec3) (e : ℚ),
      (specObserverUpdate x e).c2 - (observerUpdate x e).c2 =
        K_reg_row2.c0 * (x.c0 - x.c2)) := by
  intro ptper speed h1 h2 h3 s
  refine ⟨rfl, fun x e => rfl, fun x e => ?_, fun x e => ?_⟩
  · simp only [specObserverUpdate, observerUpdate]; ring
  · simp only [specObserverUpdate, observerUpdate]; ring

/-- Claim C4: the observer update is a synchronous vector update.  The new
estimate is `observerUpdate` of the pre-update estimate and the error (a
function only of the pre-update vector, so no freshly computed component
feeds another row), the new control output is the feedback law applied to
the fully replaced new estimate, and the stale contents of `x_dummy` are
irrelevant to the step. -/
theorem c4_synchronous_update :
    ∀ (ptper : ℕ) (speed : ℚ) (h1 h2 h3 : Bool) (s : CtrlState) (d2 : Vec3),
    (SpeedControlStep ptper speed h1 h2 h3 s).x_hat =
      observerUpdate s.x_hat (Counts2RadSec (toI16 s.qeiCount) - speed) ∧
    (SpeedControlStep ptper speed h1 h2 h3 s).u =
      -1 * (K.c0 *
          (observerUpdate s.x_hat
            (Counts2RadSec (toI16 s.qeiCount) - speed)).c0 +
        K.c1 * (observerUpdate s.x_hat
            (Counts2RadSec (toI16 s.qeiCount) - speed)).c1 +
        K.c2 * (observerUpdate s.x_hat
            (Counts2RadSec (toI16 s.qeiCount) - speed)).c2) ∧
    SpeedControlStep ptper speed h1 h2 h3 { s with x_dummy := d2 } =
      SpeedControlStep ptper speed h1 h2 h3 s :=
  fun _ _ _ _ _ _ _ => ⟨rfl, rfl, rfl⟩

/-- Claim C8: the sector-transition handler only dispatches commutation with
the cached control value: it leaves `u`, the state estimate, `x_dummy`, the
encoder counter, the telemetry pair and `LED4` untouched, and its only
output effect is the dispatch of the cached `u`. -/
theorem c8_cninterrupt_frame :
    ∀ (ptper : ℕ) (h1 h2 h3 : Bool) (s : CtrlState),
    (CNInterrupt ptper h1 h2 h3 s).u = s.u ∧
    (CNInterrupt ptper h1 h2 h3 s).x_hat = s.x_hat ∧
    (CNInterrupt ptper h1 h2 h3 s).x_dummy = s.x_dummy ∧
    (CNInterrupt ptper h1 h2 h3 s).qeiCount = s.qeiCount ∧
    (CNInterrupt ptper h1 h2 h3 s).telem = s.telem ∧
    (CNInterrupt ptper h1 h2 h3 s).led4 = s.led4 ∧
    (CNInterrupt ptper h1 h2 h3 s).out =
      trapDispatch ptper s.u h1 h2 h3 s.out :=
  fun _ _ _ _ _ => ⟨rfl, rfl, rfl, rfl, rfl, rfl, rfl⟩

/-- Claim C9: the sampler converts a per-interval displacement `c` into
`(c / 512) × 2π / Ts`, and the estimator input error inside the step is this
measured speed minus the target speed (the step runs the observer rows on
exactly `Counts2RadSec(displacement) − target`). -/
theorem c9_speed_conversion :
    ∀ (c : ℤ) (ptper : ℕ) (speed : ℚ) (h1 h2 h3 : Bool) (s : CtrlState),
    Counts2RadSec c = ((c : ℚ) / 512) * (2 * PI) / Ts ∧
    (SpeedControlStep ptper speed h1 h2 h3 s).x_hat =
      observerUpdate s.x_hat (Counts2RadSec (toI16 s.qeiCount) - speed) :=
  fun c _ _ _ _ _ _ => ⟨by rw [Counts2RadSec]; ring, rfl⟩

/-- Claim C10: the step reads the 32-bit counter but interprets it as a
signed 16-bit displacement (`toI16`, a reduction modulo 2^16 into
`[−32768, 32767]`) both for the speed conversion and for the telemetry
pair, and it resets the whole counter to zero on every call. -/
theorem c10_count_truncation :
    ∀ (ptper : ℕ) (speed : ℚ) (h1 h2 h3 : Bool) (s : CtrlState) (z : ℤ),
    (SpeedControlStep ptper speed h1 h2 h3 s).qeiCount = 0 ∧
    (SpeedControlStep ptper speed h1 h2 h3 s).telem.1 = toI16 s.qeiCount ∧
    (SpeedControlStep ptper speed h1 h2 h3 s).x_hat =
      observerUpdate s.x_hat (Counts2RadSec (toI16 s.qeiCount) - speed) ∧
    -32768 ≤ toI16 z ∧ toI16 z ≤ 32767 ∧ (z - toI16 z) % 65536 = 0 :=
  fun _ _ _ _ _ _ z =>
    ⟨rfl, rfl, rfl, by rw [toI16]; omega, by rw [toI16]; omega,
      by rw [toI16]; omega⟩

/-- Claim C2: for every commanded magnitude, each of the 6 valid sector
codes and both directions, `TrapUpdate` sets exactly one high-side leg and
one low-side leg of two distinct phases to the clamped magnitude and zeroes
the remaining four legs. -/
theorem c2_commutation_pair :
    ∀ (ptper torque : ℕ) (dir : Direction) (h1 h2 h3 : Bool) (o : PhaseOut),
    validHall h1 h2 h3 →
    ∃ hp2 lp2 : Phase, hp2 ≠ lp2 ∧
      highLeg (TrapUpdate ptper torque dir h1 h2 h3 o) hp2 =
        clampDuty ptper torque ∧
      lowLeg (TrapUpdate ptper torque dir h1 h2 h3 o) lp2 =
        clampDuty ptper torque ∧
      (∀ p : Phase, p ≠ hp2 →
        highLeg (TrapUpdate ptper torque dir h1 h2 h3 o) p = 0) ∧
      (∀ p : Phase, p ≠ lp2 →
        lowLeg (TrapUpdate ptper torque dir h1 h2 h3 o) p = 0) := by
  intro ptper torque dir h1 h2 h3 o hv
  cases dir <;> cases h1 <;> cases h2 <;> cases h3
  · exact absurd rfl hv.1
  · exact activeOut_exists Phase.C Phase.B (clampDuty ptper torque)
      false false true (by decide)
  · exact activeOut_exists Phase.B Phase.A (clampDuty ptper torque)
      false true false (by decide)
  · exact activeOut_exists Phase.C Phase.A (clampDuty ptper torque)
      false true true (by decide)
  · exact activeOut_exists Phase.A Phase.C (clampDuty ptper torque)
      true false false (by decide)
  · exact activeOut_exists Phase.A Phase.B (clampDuty ptper torque)
      true false true (by decide)
  · exact activeOut_exists Phase.B Phase.C (clampDuty ptper torque)
      true true false (by decide)
  · exact absurd rfl hv.2
  · exact absurd rfl hv.1
  · exact activeOut_exists Phase.B Phase.C (clampDuty ptper torque)
      false false true (by decide)
  · exact activeOut_exists Phase.A Phase.B (clampDuty ptper torque)
      false true false (by decide)
  · exact activeOut_exists Phase.A Phase.C (clampDuty ptper torque)
      false true true (by decide)
  · exact activeOut_exists Phase.C Phase.A (clampDuty ptper torque)
      true false false (by decide)
  · exact activeOut_exists Phase.B Phase.A (clampDuty ptper torque)
      true false true (by decide)
  · exact activeOut_exists Phase.C Phase.B (clampDuty ptper torque)
      true true false (by decide)
  · exact absurd rfl hv.2

/-- Claim C2, witness: the concrete instance with period 100, magnitude 7,
direction CW and sector code (1,1,0). -/
theorem c2_commutation_pair_witness :
    ∃ hp2 lp2 : Phase, hp2 ≠ lp2 ∧
      highLeg (TrapUpdate 100 7 Direction.CW true true false phaseOut0) hp2 =
        clampDuty 100 7 ∧
      lowLeg (TrapUpdate 100 7 Direction.CW true true false phaseOut0) lp2 =
        clampDuty 100 7 ∧
      (∀ p : Phase, p ≠ hp2 →
        highLeg (TrapUpdate 100 7 Direction.CW true true false phaseOut0) p
          = 0) ∧
      (∀ p : Phase, p ≠ lp2 →
        lowLeg (TrapUpdate 100 7 Direction.CW true true false phaseOut0) p
          = 0) :=
  c2_commutation_pair 100 7 Direction.CW true true false phaseOut0 (by decide)

/-- Claim C5: a sector code outside the six valid patterns (all-zero or
all-one) leaves the whole phase-output record unchanged, for every
magnitude and both directions. -/
theorem c5_invalid_sector_hold :
    ∀ (ptper torque : ℕ) (dir : Direction) (h1 h2 h3 : Bool) (o : PhaseOut),
    ¬ validHall h1 h2 h3 →
    TrapUpdate ptper torque dir h1 h2 h3 o = o := by
  intro ptper torque dir h1 h2 h3 o hv
  cases dir <;> cases h1 <;> cases h2 <;> cases h3
  · rfl
  · exact absurd ⟨by decide, by decide⟩ hv
  · exact absurd ⟨by decide, by decide⟩ hv
  · exact absurd ⟨by decide, by decide⟩ hv
  · exact absurd ⟨by decide, by decide⟩ hv
  · exact absurd ⟨by decide, by decide⟩ hv
  · exact absurd ⟨by decide, by decide⟩ hv
  · rfl
  · rfl
  · exact absurd ⟨by decide, by decide⟩ hv
  · exact absurd ⟨by decide, by decide⟩ hv
  · exact absurd ⟨by decide, by decide⟩ hv
  · exact absurd ⟨by decide, by decide⟩ hv
  · exact absurd ⟨by decide, by decide⟩ hv
  · exact absurd ⟨by decide, by decide⟩ hv
  · rfl

/-- Claim C5, witness: the all-zero sector code holds a nonzero phase-output
record exactly as it was. -/
theorem c5_invalid_sector_hold_witness :
    TrapUpdate 100 7 Direction.CW false false false
        ⟨1, 2, 3, 4, 5, 6, true, false, true⟩ =
      ⟨1, 2, 3, 4, 5, 6, true, false, true⟩ :=
  c5_invalid_sector_hold 100 7 Direction.CW false false false
    ⟨1, 2, 3, 4, 5, 6, true, false, true⟩ (by decide)

/-- Claim C6: for a fixed valid sector code the reverse-direction active
pair is the forward-direction active pair with the high-side and low-side
roles swapped; since the two phases are distinct, the ordered
(high, low) pair never repeats across the two directions. -/
theorem c6_direction_swap :
    ∀ (ptper t : ℕ) (h1 h2 h3 : Bool) (oA oB : PhaseOut),
    validHall h1 h2 h3 →
    ∃ hp2 lp2 : Phase, hp2 ≠ lp2 ∧
      highLeg (TrapUpdate ptper t Direction.CW h1 h2 h3 oA) hp2 =
        clampDuty ptper t ∧
      lowLeg (TrapUpdate ptper t Direction.CW h1 h2 h3 oA) lp2 =
        clampDuty ptper t ∧
      highLeg (TrapUpdate ptper t Direction.CCW h1 h2 h3 oB) lp2 =
        clampDuty ptper t ∧
      lowLeg (TrapUpdate ptper t Direction.CCW h1 h2 h3 oB) hp2 =
        clampDuty ptper t ∧
      (∀ p : Phase, p ≠ hp2 →
        highLeg (TrapUpdate ptper t Direction.CW h1 h2 h3 oA) p = 0) ∧
      (∀ p : Phase, p ≠ lp2 →
        lowLeg (TrapUpdate ptper t Direction.CW h1 h2 h3 oA) p = 0) ∧
      (∀ p : Phase, p ≠ lp2 →
        highLeg (TrapUpdate ptper t Direction.CCW h1 h2 h3 oB) p = 0) ∧
      (∀ p : Phase, p ≠ hp2 →
        lowLeg (TrapUpdate ptper t Direction.CCW h1 h2 h3 oB) p = 0) := by
  intro ptper t h1 h2 h3 oA oB hv
  cases h1 <;> cases h2 <;> cases h3
  · exact absurd rfl hv.1
  · exact activePair_swap Phase.C Phase.B (clampDuty ptper t)
      false false true false false true (by decide)
  · exact activePair_swap Phase.B Phase.A (clampDuty ptper t)
      false true false false true false (by decide)
  · exact activePair_swap Phase.C Phase.A (clampDuty ptper t)
      false true true false true true (by decide)
  · exact activePair_swap Phase.A Phase.C (clampDuty ptper t)
      true false false true false false (by decide)
  · exact activePair_swap Phase.A Phase.B (clampDuty ptper t)
      true false true true false true (by decide)
  · exact activePair_swap Phase.B Phase.C (clampDuty ptper t)
      true true false true true false (by decide)
  · exact absurd rfl hv.2

/-- Claim C6, witness: the concrete instance with period 100, magnitude 7
and sector code (1,1,0). -/
theorem c6_direction_swap_witness :
    ∃ hp2 lp2 : Phase, hp2 ≠ lp2 ∧
      highLeg (TrapUpdate 100 7 Direction.CW true true false phaseOut0) hp2 =
        clampDuty 100 7 ∧
      lowLeg (TrapUpdate 100 7 Direction.CW true true false phaseOut0) lp2 =
        clampDuty 100 7 ∧
      highLeg (TrapUpdate 100 7 Direction.CCW true true false phaseOut0) lp2 =
        clampDuty 100 7 ∧
      lowLeg (TrapUpdate 100 7 Direction.CCW true true false phaseOut0) hp2 =
        clampDuty 100 7 ∧
      (∀ p : Phase, p ≠ hp2 →
        highLeg (TrapUpdate 100 7 Direction.CW true true false phaseOut0) p
          = 0) ∧
      (∀ p : Phase, p ≠ lp2 →
        lowLeg (TrapUpdate 100 7 Direction.CW true true false phaseOut0) p
          = 0) ∧
      (∀ p : Phase, p ≠ lp2 →
        highLeg (TrapUpdate 100 7 Direction.CCW true true false phaseOut0) p
          = 0) ∧
      (∀ p : Phase, p ≠ hp2 →
        lowLeg (TrapUpdate 100 7 Direction.CCW true true false phaseOut0) p
          = 0) :=
  c6_direction_swap 100 7 true true false phaseOut0 phaseOut0 (by decide)

/-- Claim C3, counterexample: with period register 4096 and `u = 16`, the
product `|u| × PTPER = 65536` wraps to `0` in the `(uint16_t)` cast, so the
duty applied to the active legs is `0`, not `PTPER`, although `|u| > 1`. -/
theorem c3_duty_clamp_counterexample :
    1 < |(16 : ℚ)| ∧ appliedDuty 4096 16 ≠ 4096 ∧
      (trapDispatch 4096 16 true true false phaseOut0).ghB = 0 := by
  have h2 : cTrunc 65536 = 65536 := by
    rw [cTrunc, if_neg (by norm_num)]
    rw [show (65536 : ℚ) = ((65536 : ℤ) : ℚ) by norm_num, Int.floor_intCast]
  refine ⟨by norm_num, ?_, ?_⟩
  · have h1 : ((if (16 : ℚ) < 0 then -1 * 16 else 16) * ((4096 : ℕ) : ℚ))
        = 65536 := by norm_num
    rw [appliedDuty, h1, ratToU16, h2]
    decide
  · have h3 : ratToU16 ((16 : ℚ) * ((4096 : ℕ) : ℚ)) = 0 := by
      rw [show ((16 : ℚ) * ((4096 : ℕ) : ℚ)) = 65536 by norm_num, ratToU16,
        h2]
      decide
    rw [trapDispatch, if_neg (by norm_num),
      if_pos (by norm_num : (0 : ℚ) ≤ 16), h3]
    rfl

/-- Claim C3, amended: for any `u` with `|u| > 1` whose truncated product
`|u| × PTPER` still fits in 16 bits, the duty applied to the active legs is
exactly `PTPER` (the `(uint16_t)` cast wraps modulo 2^16 beyond that); in
all cases the applied duty lies in `[0, PTPER]`; and `appliedDuty` is
exactly the value `trapDispatch` writes to the active legs (shown on the
sector code (1,1,0): the low-side B leg when `u < 0`, the high-side B leg
otherwise). -/
theorem c3_duty_clamp :
    ∀ (ptper : ℕ) (u : ℚ) (o : PhaseOut),
    (1 < |u| → cTrunc (|u| * (ptper : ℚ)) < 65536 →
      appliedDuty ptper u = ptper) ∧
    appliedDuty ptper u ≤ ptper ∧
    (if u < 0 then (trapDispatch ptper u true true false o).glB
     else (trapDispatch ptper u true true false o).ghB) =
      appliedDuty ptper u := by
  intro ptper u o
  refine ⟨?_, clampDuty_le ptper _, ?_⟩
  · intro hu hlt
    have habs : (if u < 0 then -1 * u else u) = |u| := by
      rcases lt_or_ge u 0 with h | h
      · rw [if_pos h, abs_of_neg h]; ring
      · rw [if_neg (not_lt.mpr h), abs_of_nonneg h]
    have hq0 : 0 ≤ |u| * (ptper : ℚ) := mul_nonneg (abs_nonneg u)
      (by positivity)
    have hct : cTrunc (|u| * (ptper : ℚ)) = Int.floor (|u| * (ptper : ℚ)) :=
      by rw [cTrunc, if_neg (not_lt.mpr hq0)]
    have hfl0 : 0 ≤ Int.floor (|u| * (ptper : ℚ)) := Int.floor_nonneg.mpr hq0
    have hge : (ptper : ℤ) ≤ Int.floor (|u| * (ptper : ℚ)) := by
      rw [Int.le_floor]
      push_cast
      exact le_mul_of_one_le_left (by positivity) hu.le
    rw [hct] at hlt
    rw [appliedDuty, habs, ratToU16, hct, Int.emod_eq_of_lt hfl0 hlt,
      clampDuty]
    split
    · rfl
    · next h =>
      have := Int.toNat_le_toNat hge
      simp only [Int.toNat_natCast] at this
      omega
  · rcases lt_or_ge u 0 with h | h
    · rw [if_pos h, trapDispatch, if_pos h, appliedDuty, if_pos h]
      rfl
    · rw [if_neg (not_lt.mpr h), trapDispatch, if_neg (not_lt.mpr h),
        if_pos h, appliedDuty, if_neg (not_lt.mpr h)]
      rfl

/-- Claim C3, witness: period 4000 and `u = 2`: the truncation fits in 16
bits, so the applied duty is exactly 4000, within bounds, and equals the
high-side B leg the dispatch writes. -/
theorem c3_duty_clamp_witness :
    appliedDuty 4000 2 = 4000 ∧ appliedDuty 4000 2 ≤ 4000 ∧
      (if (2 : ℚ) < 0 then (trapDispatch 4000 2 true true false phaseOut0).glB
       else (trapDispatch 4000 2 true true false phaseOut0).ghB) =
        appliedDuty 4000 2 :=
  ⟨(c3_duty_clamp 4000 2 phaseOut0).1 (by norm_num)
      (by rw [show |(2 : ℚ)| * ((4000 : ℕ) : ℚ) = ((8000 : ℤ) : ℚ)
            by norm_num, cTrunc, if_neg (by norm_num), Int.floor_intCast]
          norm_num),
   (c3_duty_clamp 4000 2 phaseOut0).2.1,
   (c3_duty_clamp 4000 2 phaseOut0).2.2⟩

/-- Claim C7: both the periodic path and the sector-transition path map the
sign of `u` to direction the same way: `u < 0` dispatches reverse (CCW),
`u = 0` and `u > 0` dispatch forward (CW).  The last two conjuncts show
that the commutation output of each entry point is exactly this sign
dispatch, applied to the freshly computed `u` in the periodic step and to
the cached `u` in the interrupt. -/
theorem c7_sign_direction :
    ∀ (ptper : ℕ) (u speed : ℚ) (h1 h2 h3 : Bool) (o : PhaseOut)
      (s : CtrlState),
    (u < 0 → trapDispatch ptper u h1 h2 h3 o =
      TrapUpdate ptper (ratToU16 (-1 * u * (ptper : ℚ))) Direction.CCW
        h1 h2 h3 o) ∧
    (0 ≤ u → trapDispatch ptper u h1 h2 h3 o =
      TrapUpdate ptper (ratToU16 (u * (ptper : ℚ))) Direction.CW
        h1 h2 h3 o) ∧
    (u = 0 → trapDispatch ptper u h1 h2 h3 o =
      TrapUpdate ptper (ratToU16 (u * (ptper : ℚ))) Direction.CW
        h1 h2 h3 o) ∧
    (SpeedControlStep ptper speed h1 h2 h3 s).out =
      trapDispatch ptper (SpeedControlStep ptper speed h1 h2 h3 s).u
        h1 h2 h3 s.out ∧
    (CNInterrupt ptper h1 h2 h3 s).out =
      trapDispatch ptper s.u h1 h2 h3 s.out := by
  intro ptper u speed h1 h2 h3 o s
  refine ⟨fun hu => by rw [trapDispatch, if_pos hu],
    fun hu => by rw [trapDispatch, if_neg (not_lt.mpr hu), if_pos hu],
    fun hu => ?_, rfl, rfl⟩
  subst hu
  rw [trapDispatch, if_neg (by norm_num), if_pos (by norm_num)]

/-- Claim C7, witness: the three sign cases at `u = −1`, `u = 1` and
`u = 0` with period 100 and sector code (1,1,0). -/
theorem c7_sign_direction_witness :
    trapDispatch 100 (-1 : ℚ) true true false phaseOut0 =
      TrapUpdate 100 (ratToU16 (-1 * (-1 : ℚ) * ((100 : ℕ) : ℚ)))
        Direction.CCW true true false phaseOut0 ∧
    trapDispatch 100 (1 : ℚ) true true false phaseOut0 =
      TrapUpdate 100 (ratToU16 ((1 : ℚ) * ((100 : ℕ) : ℚ))) Direction.CW
        true true false phaseOut0 ∧
    trapDispatch 100 (0 : ℚ) true true false phaseOut0 =
      TrapUpdate 100 (ratToU16 ((0 : ℚ) * ((100 : ℕ) : ℚ))) Direction.CW
        true true false phaseOut0 :=
  ⟨(c7_sign_direction 100 (-1) 0 true true false phaseOut0 ctrlState1).1
      (by norm_num),
   (c7_sign_direction 100 1 0 true true false phaseOut0 ctrlState1).2.1
      (by norm_num),
   (c7_sign_direction 100 0 0 true true false phaseOut0 ctrlState1).2.2.1
      rfl⟩

end PMSM
